import Mathlib

/-
  Verification of the trading-pipeline microservices
  (TradeService, PricingService, PnLService, RiskService).

  Shallow embedding of the four request handlers in
  src/services/*/src/app.py.  JSON numbers are modelled as rationals,
  JSON strings as String, an absent JSON field as none.  The per-service
  in-memory dict store is an association list where assignment prepends
  (so a later write for the same key shadows the earlier one, exactly
  the overwrite semantics of a Python dict).  Sources of randomness
  (uniform draws, simulated-failure coin flips), the fresh uuid4 token,
  the creation timestamp and the observed outcome of the fire-and-forget
  downstream HTTP call are explicit parameters of the handler functions.
-/

namespace TradingPipeline

/-- Outcome observed for the best-effort downstream HTTP call: a 200
response, a non-200 status code, or a transport-level exception.  The
handlers only log it. -/
inductive DownstreamOutcome : Type where
  | ok : DownstreamOutcome
  | non200 : Nat → DownstreamOutcome
  | transportError : String → DownstreamOutcome
deriving DecidableEq, Repr

/-- A per-service in-memory store keyed by trade_id.  Assignment
prepends, so lookup sees the newest binding first, matching dict
overwrite semantics. -/
abbrev Store (α : Type) : Type := List (String × α)

/-- Dict assignment d[k] = v. -/
def Store.insert {α : Type} (s : Store α) (k : String) (v : α) : Store α :=
  (k, v) :: s

/-- Dict read d.get(k): the newest binding for k, if any. -/
def Store.lookup {α : Type} : Store α → String → Option α
  | [], _ => none
  | (k, v) :: rest, key => if key = k then some v else Store.lookup rest key

theorem Store.lookup_insert {α : Type} (s : Store α) (k : String) (v : α) :
    (s.insert k v).lookup k = some v := by
  simp [Store.insert, Store.lookup]

theorem Store.lookup_insert_ne {α : Type} (s : Store α) (k key : String) (v : α)
    (h : key ≠ k) : (s.insert k v).lookup key = s.lookup key := by
  simp [Store.insert, Store.lookup, h]

/-! ## RiskService (src/services/risk_service/src/app.py) -/

/-- Record stored in the risks dict by the /risk handler. -/
structure RiskRecord : Type where
  risk_level : String
  pnl_value : ℚ
  quantity : ℚ
deriving DecidableEq, Repr

/-- Risk classification, first match wins (assess_risk in app.py). -/
def assess_risk (pnl_value quantity : ℚ) : String :=
  if pnl_value < 0 ∧ quantity > 50 then "HIGH"
  else if pnl_value < -100 then "MEDIUM"
  else "LOW"

/-- Body of a POST /risk request: each field is none when the key is
absent from the JSON payload. -/
structure RiskRequest : Type where
  trade_id : Option String
  pnl_value : Option ℚ
  quantity : Option ℚ
deriving DecidableEq, Repr

/-- Response body of POST /risk. -/
inductive RiskBody : Type where
  | err : String → RiskBody
  | ok : String → String → RiskBody
deriving DecidableEq, Repr

/-- Result of one POST /risk request: HTTP status, response body, and
the risks store after the request. -/
structure RiskResult : Type where
  status : Nat
  body : RiskBody
  store : Store RiskRecord
deriving DecidableEq, Repr

/-- The /risk POST handler (assess_trade_risk in app.py).  Validation
requires trade_id truthy and pnl_value, quantity non-null.  The
simulated 3 percent ExternalDataUnavailable failure is the explicit
flag `fail`; it fires after classification but before persistence. -/
def assess_trade_risk (risks : Store RiskRecord) (req : RiskRequest)
    (fail : Bool) : RiskResult :=
  match req.trade_id, req.pnl_value, req.quantity with
  | some tid, some p, some q =>
    if tid = "" then
      ⟨400, .err "Missing required fields", risks⟩
    else
      let risk_level := assess_risk p q
      if fail then
        ⟨503, .err "External data unavailability", risks⟩
      else
        ⟨200, .ok tid risk_level, risks.insert tid ⟨risk_level, p, q⟩⟩
  | _, _, _ => ⟨400, .err "Missing required fields", risks⟩

/-- The /risk/(trade_id) GET handler (get_risk in app.py). -/
def get_risk (risks : Store RiskRecord) (tid : String) :
    Nat × Option RiskRecord :=
  match risks.lookup tid with
  | none => (404, none)
  | some r => (200, some r)

/-! ## PricingService (src/services/pricing_service/src/app.py) -/

/-- Base-price lookup table with default 100.0 (base_prices.get in
compute_price). -/
def base_prices (symbol : String) : ℚ :=
  if symbol = "AAPL" then 150
  else if symbol = "GOOGL" then 2800
  else if symbol = "MSFT" then 300
  else 100

/-- compute_price in app.py: base price plus the uniform(-5, 5) draw,
the draw made an explicit argument. -/
def compute_price (symbol : String) (noise : ℚ) : ℚ :=
  base_prices symbol + noise

/-- Body of a POST /prices request. -/
structure PriceRequest : Type where
  trade_id : Option String
  symbol : Option String
  quantity : Option ℚ
deriving DecidableEq, Repr

/-- The downstream POST to the PnL service fired by the /prices
handler: the forwarded X-Trace-Id header and the JSON payload. -/
structure PnlCall : Type where
  traceId : String
  trade_id : String
  symbol : String
  price : ℚ
  quantity : ℚ
deriving DecidableEq, Repr

/-- Response body of POST /prices. -/
inductive PriceBody : Type where
  | err : String → PriceBody
  | ok : String → ℚ → PriceBody
deriving DecidableEq, Repr

/-- Result of one POST /prices request: HTTP status, response body, and
the downstream call issued (none when no call was fired) together with
its observed outcome. -/
structure PriceResult : Type where
  status : Nat
  body : PriceBody
  downstream : Option (PnlCall × DownstreamOutcome)
deriving DecidableEq, Repr

/-- The /prices POST handler (compute_trade_price in app.py).
Validation requires trade_id and symbol truthy and quantity non-null.
`timedOut` is the explicit 10 percent timeout coin; `noise` the
uniform(-5, 5) draw; `outcome` the observed downstream result. -/
def compute_trade_price (req : PriceRequest) (traceHeader : Option String)
    (freshTrace : String) (timedOut : Bool) (noise : ℚ)
    (outcome : DownstreamOutcome) : PriceResult :=
  let trace_id := traceHeader.getD freshTrace
  match req.trade_id, req.symbol, req.quantity with
  | some tid, some sym, some q =>
    if tid = "" ∨ sym = "" then
      ⟨400, .err "Missing trade_id, symbol, or quantity", none⟩
    else if timedOut then
      ⟨504, .err "Timeout", none⟩
    else
      let computed_price := compute_price sym noise
      ⟨200, .ok tid computed_price,
        some (⟨trace_id, tid, sym, computed_price, q⟩, outcome)⟩
  | _, _, _ => ⟨400, .err "Missing trade_id, symbol, or quantity", none⟩

/-! ## PnLService (src/services/pnl_service/src/app.py) -/

/-- Cost-basis lookup table with default 90.0 (base_costs.get in
compute_pnl). -/
def base_costs (symbol : String) : ℚ :=
  if symbol = "AAPL" then 140
  else if symbol = "GOOGL" then 2700
  else if symbol = "MSFT" then 280
  else 90

/-- Record stored in the pnls dict by the /pnl handler. -/
structure PnlRecord : Type where
  pnl_value : ℚ
  symbol : String
  price : ℚ
  quantity : ℚ
  cost : ℚ
deriving DecidableEq, Repr

/-- Body of a POST /pnl request. -/
structure PnlRequest : Type where
  trade_id : Option String
  symbol : Option String
  price : Option ℚ
  quantity : Option ℚ
deriving DecidableEq, Repr

/-- The downstream POST to the Risk service fired by the /pnl handler. -/
structure RiskCall : Type where
  traceId : String
  trade_id : String
  pnl_value : ℚ
  quantity : ℚ
deriving DecidableEq, Repr

/-- Response body of POST /pnl. -/
inductive PnlBody : Type where
  | err : String → PnlBody
  | ok : String → ℚ → PnlBody
deriving DecidableEq, Repr

/-- Result of one POST /pnl request. -/
structure PnlResult : Type where
  status : Nat
  body : PnlBody
  store : Store PnlRecord
  downstream : Option (RiskCall × DownstreamOutcome)
deriving DecidableEq, Repr

/-- The /pnl POST handler (compute_pnl in app.py).  Validation requires
all four fields truthy.  pnl_value is computed first; the simulated
5 percent DataInconsistency failure (`fail`) then fires before the
store write and before the downstream call. -/
def compute_pnl (pnls : Store PnlRecord) (req : PnlRequest)
    (traceHeader : Option String) (freshTrace : String) (fail : Bool)
    (outcome : DownstreamOutcome) : PnlResult :=
  let trace_id := traceHeader.getD freshTrace
  match req.trade_id, req.symbol, req.price, req.quantity with
  | some tid, some sym, some pr, some q =>
    if tid = "" ∨ sym = "" ∨ pr = 0 ∨ q = 0 then
      ⟨400, .err "Missing required fields", pnls, none⟩
    else
      let cost := base_costs sym
      let pnl_value := (pr - cost) * q
      if fail then
        ⟨500, .err "Data inconsistency", pnls, none⟩
      else
        ⟨200, .ok tid pnl_value,
          pnls.insert tid ⟨pnl_value, sym, pr, q, cost⟩,
          some (⟨trace_id, tid, pnl_value, q⟩, outcome)⟩
  | _, _, _, _ => ⟨400, .err "Missing required fields", pnls, none⟩

/-- The /pnl/(trade_id) GET handler (get_pnl in app.py). -/
def get_pnl (pnls : Store PnlRecord) (tid : String) :
    Nat × Option PnlRecord :=
  match pnls.lookup tid with
  | none => (404, none)
  | some r => (200, some r)

/-! ## TradeService (src/services/trade_service/src/app.py) -/

/-- Modelled from the spec: the Trade model class is imported from a
models module absent from src; per the spec data model it is a plain
record with fields trade_id, symbol, quantity, price, trade_type and a
server-assigned timestamp, exactly the fields the handler sets and
reads back. -/
structure Trade : Type where
  trade_id : String
  symbol : String
  quantity : ℚ
  price : ℚ
  trade_type : String
  timestamp : String
deriving DecidableEq, Repr

/-- create_trade_object in app.py: builds a Trade with the
server-assigned timestamp (datetime.now made an explicit argument). -/
def create_trade_object (trade_id symbol : String) (quantity price : ℚ)
    (trade_type timestamp : String) : Trade :=
  ⟨trade_id, symbol, quantity, price, trade_type, timestamp⟩

/-- Body of a POST /trades request. -/
structure TradeRequest : Type where
  trade_id : Option String
  symbol : Option String
  quantity : Option ℚ
  price : Option ℚ
  trade_type : Option String
deriving DecidableEq, Repr

/-- The downstream POST to the Pricing service fired by the /trades
handler. -/
structure PricingCall : Type where
  traceId : String
  trade_id : String
  symbol : String
  quantity : ℚ
deriving DecidableEq, Repr

/-- Response body of POST /trades. -/
inductive TradeBody : Type where
  | err : String → TradeBody
  | created : String → String → TradeBody
deriving DecidableEq, Repr

/-- Result of one POST /trades request. -/
structure CreateTradeResult : Type where
  status : Nat
  body : TradeBody
  store : Store Trade
  downstream : Option (PricingCall × DownstreamOutcome)
deriving DecidableEq, Repr

/-- The /trades POST handler (create_trade in app.py).  Validation is
the Python truthiness check not all([...]): every field must be present
and truthy (non-empty string, nonzero number).  On success the trade is
stored, the downstream POST to PricingService is fired with the
propagated trace id, its outcome is only logged, and 201 is returned. -/
def create_trade (trades : Store Trade) (req : TradeRequest)
    (traceHeader : Option String) (freshTrace : String) (timestamp : String)
    (outcome : DownstreamOutcome) : CreateTradeResult :=
  let trace_id := traceHeader.getD freshTrace
  match req.trade_id, req.symbol, req.quantity, req.price, req.trade_type with
  | some tid, some sym, some qty, some pr, some tt =>
    if tid = "" ∨ sym = "" ∨ qty = 0 ∨ pr = 0 ∨ tt = "" then
      ⟨400, .err "Missing required fields", trades, none⟩
    else
      let trade := create_trade_object tid sym qty pr tt timestamp
      ⟨201, .created "Trade created" tid, trades.insert tid trade,
        some (⟨trace_id, tid, sym, qty⟩, outcome)⟩
  | _, _, _, _, _ => ⟨400, .err "Missing required fields", trades, none⟩

/-- Response body of GET /trades/(trade_id): the six serialized fields
of the stored trade. -/
inductive GetTradeBody : Type where
  | err : String → GetTradeBody
  | ok : String → String → ℚ → ℚ → String → String → GetTradeBody
deriving DecidableEq, Repr

/-- The /trades/(trade_id) GET handler (get_trade in app.py). -/
def get_trade (trades : Store Trade) (tid : String) : Nat × GetTradeBody :=
  match trades.lookup tid with
  | none => (404, .err "Trade not found")
  | some t =>
    (200, .ok t.trade_id t.symbol t.quantity t.price t.trade_type t.timestamp)

/-! ## Operation sequences against the risk store (for the store
invariant) -/

/-- One inbound request to the Risk service: a POST /risk (with its
simulated-failure coin) or a GET /risk/(trade_id). -/
inductive RiskOp : Type where
  | post : RiskRequest → Bool → RiskOp
  | get : String → RiskOp
deriving DecidableEq, Repr

/-- The risks store after one request (GET requests never mutate it). -/
def riskStep (risks : Store RiskRecord) : RiskOp → Store RiskRecord
  | .post req fail => (assess_trade_risk risks req fail).store
  | .get _ => risks

/-- The risks store after a sequence of requests. -/
def runRiskOps (risks : Store RiskRecord) : List RiskOp → Store RiskRecord
  | [] => risks
  | op :: ops => runRiskOps (riskStep risks op) ops

/-! ## Claims -/

/-- C1: a POST /risk that passes validation and takes the non-failure
path returns 200 and stores a record whose risk_level is assess_risk
applied to the submitted pnl_value and quantity; assess_risk is
first-match-wins over the ordered rules (pnl_value below 0 and quantity
above 50 gives HIGH, else pnl_value below -100 gives MEDIUM, else LOW);
in particular (-50, 60) gives HIGH, (-150, 10) gives MEDIUM and
(10, 1000) gives LOW. -/
theorem risk_post_first_match_classification
    (risks : Store RiskRecord) (tid : String) (p q : ℚ) (htid : tid ≠ "") :
    ((assess_trade_risk risks ⟨some tid, some p, some q⟩ false).status = 200 ∧
     (assess_trade_risk risks ⟨some tid, some p, some q⟩ false).body =
       .ok tid (assess_risk p q) ∧
     (assess_trade_risk risks ⟨some tid, some p, some q⟩ false).store.lookup
       tid = some ⟨assess_risk p q, p, q⟩) ∧
    (p < 0 ∧ q > 50 → assess_risk p q = "HIGH") ∧
    (¬(p < 0 ∧ q > 50) → p < -100 → assess_risk p q = "MEDIUM") ∧
    (¬(p < 0 ∧ q > 50) → ¬(p < -100) → assess_risk p q = "LOW") ∧
    assess_risk (-50) 60 = "HIGH" ∧
    assess_risk (-150) 10 = "MEDIUM" ∧
    assess_risk 10 1000 = "LOW" := by
  refine ⟨⟨?_, ?_, ?_⟩, ?_, ?_, ?_, ?_, ?_, ?_⟩
  · simp [assess_trade_risk, htid]
  · simp [assess_trade_risk, htid]
  · simp [assess_trade_risk, htid, Store.lookup_insert]
  · intro h; simp [assess_risk, h]
  · intro h1 h2; simp [assess_risk, h1, h2]
  · intro h1 h2; simp [assess_risk, h1, h2]
  · norm_num [assess_risk]
  · norm_num [assess_risk]
  · norm_num [assess_risk]

/-- Witness for C1 at risks = empty store, trade_id T1, pnl_value -50,
quantity 60. -/
theorem risk_post_first_match_classification_witness :
    ("T1" : String) ≠ "" ∧
    (assess_trade_risk [] ⟨some "T1", some (-50), some 60⟩ false).status =
      200 :=
  ⟨by decide,
   (risk_post_first_match_classification [] "T1" (-50) 60 (by decide)).1.1⟩

/-- C2: a POST /pnl that passes validation and takes the non-failure
path returns 200 and stores pnl_value equal to
(price - base_costs symbol) * quantity exactly, with cost 140 for AAPL,
2700 for GOOGL, 280 for MSFT and 90 otherwise; in particular AAPL at
price 150 and quantity 10 gives pnl_value 100. -/
theorem pnl_post_formula
    (pnls : Store PnlRecord) (tid sym : String) (pr q : ℚ)
    (traceHeader : Option String) (freshTrace : String)
    (outcome : DownstreamOutcome)
    (htid : tid ≠ "") (hsym : sym ≠ "") (hpr : pr ≠ 0) (hq : q ≠ 0) :
    ((compute_pnl pnls ⟨some tid, some sym, some pr, some q⟩ traceHeader
        freshTrace false outcome).status = 200 ∧
     (compute_pnl pnls ⟨some tid, some sym, some pr, some q⟩ traceHeader
        freshTrace false outcome).body = .ok tid ((pr - base_costs sym) * q) ∧
     (compute_pnl pnls ⟨some tid, some sym, some pr, some q⟩ traceHeader
        freshTrace false outcome).store.lookup tid =
       some ⟨(pr - base_costs sym) * q, sym, pr, q, base_costs sym⟩) ∧
    base_costs "AAPL" = 140 ∧ base_costs "GOOGL" = 2700 ∧
    base_costs "MSFT" = 280 ∧
    (sym ≠ "AAPL" → sym ≠ "GOOGL" → sym ≠ "MSFT" → base_costs sym = 90) ∧
    (150 - base_costs "AAPL") * 10 = 100 := by
  refine ⟨⟨?_, ?_, ?_⟩, by decide, by decide, by decide, ?_,
    by norm_num [base_costs]⟩
  · simp [compute_pnl, htid, hsym, hpr, hq]
  · simp [compute_pnl, htid, hsym, hpr, hq]
  · simp [compute_pnl, htid, hsym, hpr, hq, Store.lookup_insert]
  · intro h1 h2 h3; simp [base_costs, h1, h2, h3]

/-- Witness for C2 at pnls = empty store, trade_id T1, symbol AAPL,
price 150, quantity 10. -/
theorem pnl_post_formula_witness :
    ("T1" : String) ≠ "" ∧ ("AAPL" : String) ≠ "" ∧ (150 : ℚ) ≠ 0 ∧
    (10 : ℚ) ≠ 0 ∧
    (compute_pnl [] ⟨some "T1", some "AAPL", some 150, some 10⟩ none "f"
      false .ok).body = .ok "T1" ((150 - base_costs "AAPL") * 10) :=
  ⟨by decide, by decide, by norm_num, by norm_num,
   (pnl_post_formula [] "T1" "AAPL" 150 10 none "f" .ok (by decide)
     (by decide) (by norm_num) (by norm_num)).1.2.1⟩

/-- C3: when a POST /pnl that passed validation takes the simulated
DataInconsistency failure path, the handler returns 500 and the pnls
store is returned unchanged: no record is written or modified. -/
theorem pnl_failure_leaves_store_unchanged
    (pnls : Store PnlRecord) (tid sym : String) (pr q : ℚ)
    (traceHeader : Option String) (freshTrace : String)
    (outcome : DownstreamOutcome)
    (htid : tid ≠ "") (hsym : sym ≠ "") (hpr : pr ≠ 0) (hq : q ≠ 0) :
    (compute_pnl pnls ⟨some tid, some sym, some pr, some q⟩ traceHeader
       freshTrace true outcome).status = 500 ∧
    (compute_pnl pnls ⟨some tid, some sym, some pr, some q⟩ traceHeader
       freshTrace true outcome).store = pnls := by
  constructor
  · simp [compute_pnl, htid, hsym, hpr, hq]
  · simp [compute_pnl, htid, hsym, hpr, hq]

/-- Witness for C3 at pnls = a one-record store, trade_id T1, symbol
AAPL, price 150, quantity 10. -/
theorem pnl_failure_leaves_store_unchanged_witness :
    ("T1" : String) ≠ "" ∧ ("AAPL" : String) ≠ "" ∧ (150 : ℚ) ≠ 0 ∧
    (10 : ℚ) ≠ 0 ∧
    (compute_pnl [("T1", ⟨7, "MSFT", 287, 1, 280⟩)]
       ⟨some "T1", some "AAPL", some 150, some 10⟩ none "f" true .ok).store =
      [("T1", ⟨7, "MSFT", 287, 1, 280⟩)] :=
  ⟨by decide, by decide, by norm_num, by norm_num,
   (pnl_failure_leaves_store_unchanged [("T1", ⟨7, "MSFT", 287, 1, 280⟩)]
     "T1" "AAPL" 150 10 none "f" .ok (by decide) (by decide) (by norm_num)
     (by norm_num)).2⟩

/-- C4: for every input accepted by POST /trades, a GET
/trades/(trade_id) against the resulting store returns 200 with exactly
the submitted symbol, quantity, price and trade_type plus the
server-assigned timestamp. -/
theorem trade_post_get_roundtrip
    (trades : Store Trade) (tid sym : String) (qty pr : ℚ)
    (tt : String) (traceHeader : Option String)
    (freshTrace timestamp : String) (outcome : DownstreamOutcome)
    (htid : tid ≠ "") (hsym : sym ≠ "") (hqty : qty ≠ 0) (hpr : pr ≠ 0)
    (htt : tt ≠ "") :
    get_trade (create_trade trades ⟨some tid, some sym, some qty, some pr,
        some tt⟩ traceHeader freshTrace timestamp outcome).store tid =
      (200, .ok tid sym qty pr tt timestamp) := by
  simp [create_trade, htid, hsym, hqty, hpr, htt, get_trade,
    Store.lookup_insert, create_trade_object]

/-- Witness for C4 at trades = empty store, trade_id T1, symbol AAPL,
quantity 10, price 150, trade_type buy, timestamp ts0. -/
theorem trade_post_get_roundtrip_witness :
    ("T1" : String) ≠ "" ∧ ("AAPL" : String) ≠ "" ∧ (10 : ℚ) ≠ 0 ∧
    (150 : ℚ) ≠ 0 ∧ ("buy" : String) ≠ "" ∧
    get_trade (create_trade [] ⟨some "T1", some "AAPL", some 10, some 150,
        some "buy"⟩ none "f" "ts0" .ok).store "T1" =
      (200, .ok "T1" "AAPL" 10 150 "buy" "ts0") :=
  ⟨by decide, by decide, by norm_num, by norm_num, by decide,
   trade_post_get_roundtrip [] "T1" "AAPL" 10 150 "buy" none "f" "ts0" .ok
     (by decide) (by decide) (by norm_num) (by norm_num) (by decide)⟩

/-- C5: two successful POSTs to /pnl (resp. /risk) with the same
trade_id leave the store holding only the second record: a GET for that
trade_id after the second POST returns exactly the newest values. -/
theorem repost_last_write_wins
    (pnls : Store PnlRecord) (risks : Store RiskRecord)
    (tid sym1 sym2 : String) (pr1 q1 pr2 q2 p1 rq1 p2 rq2 : ℚ)
    (th1 th2 : Option String) (f1 f2 : String)
    (o1 o2 : DownstreamOutcome)
    (htid : tid ≠ "") (hsym1 : sym1 ≠ "") (hpr1 : pr1 ≠ 0) (hq1 : q1 ≠ 0)
    (hsym2 : sym2 ≠ "") (hpr2 : pr2 ≠ 0) (hq2 : q2 ≠ 0) :
    get_pnl (compute_pnl
        (compute_pnl pnls ⟨some tid, some sym1, some pr1, some q1⟩ th1 f1
          false o1).store
        ⟨some tid, some sym2, some pr2, some q2⟩ th2 f2 false o2).store tid =
      (200, some ⟨(pr2 - base_costs sym2) * q2, sym2, pr2, q2,
        base_costs sym2⟩) ∧
    get_risk (assess_trade_risk
        (assess_trade_risk risks ⟨some tid, some p1, some rq1⟩ false).store
        ⟨some tid, some p2, some rq2⟩ false).store tid =
      (200, some ⟨assess_risk p2 rq2, p2, rq2⟩) := by
  constructor
  · simp [compute_pnl, htid, hsym1, hpr1, hq1, hsym2, hpr2, hq2, get_pnl,
      Store.lookup_insert]
  · simp [assess_trade_risk, htid, get_risk, Store.lookup_insert]

/-- Witness for C5 at empty stores, trade_id T1, first POSTs (AAPL,
150, 10) and (-50, 60), second POSTs (MSFT, 300, 2) and (10, 1). -/
theorem repost_last_write_wins_witness :
    ("T1" : String) ≠ "" ∧ ("AAPL" : String) ≠ "" ∧ (150 : ℚ) ≠ 0 ∧
    (10 : ℚ) ≠ 0 ∧ ("MSFT" : String) ≠ "" ∧ (300 : ℚ) ≠ 0 ∧ (2 : ℚ) ≠ 0 ∧
    get_pnl (compute_pnl
        (compute_pnl [] ⟨some "T1", some "AAPL", some 150, some 10⟩ none "f"
          false .ok).store
        ⟨some "T1", some "MSFT", some 300, some 2⟩ none "f" false .ok).store
      "T1" = (200, some ⟨(300 - base_costs "MSFT") * 2, "MSFT", 300, 2,
        base_costs "MSFT"⟩) :=
  ⟨by decide, by decide, by norm_num, by norm_num, by decide, by norm_num,
   by norm_num,
   (repost_last_write_wins [] [] "T1" "AAPL" "MSFT" 150 10 300 2 (-50) 60
     10 1 none none "f" "f" .ok .ok (by decide) (by decide) (by norm_num)
     (by norm_num) (by decide) (by norm_num) (by norm_num)).1⟩

/-- C6: a POST /trades that passes validation returns 201 with the
submitted trade_id and stores the trade, for every possible outcome of
the downstream call to PricingService; moreover for every request, the
status, body and store of the response do not depend on the downstream
outcome at all. -/
theorem trade_response_independent_of_downstream
    (trades : Store Trade) (tid sym : String) (qty pr : ℚ) (tt : String)
    (traceHeader : Option String) (freshTrace timestamp : String)
    (htid : tid ≠ "") (hsym : sym ≠ "") (hqty : qty ≠ 0) (hpr : pr ≠ 0)
    (htt : tt ≠ "") :
    (∀ outcome : DownstreamOutcome,
      (create_trade trades ⟨some tid, some sym, some qty, some pr, some tt⟩
          traceHeader freshTrace timestamp outcome).status = 201 ∧
      (create_trade trades ⟨some tid, some sym, some qty, some pr, some tt⟩
          traceHeader freshTrace timestamp outcome).body =
        .created "Trade created" tid ∧
      (create_trade trades ⟨some tid, some sym, some qty, some pr, some tt⟩
          traceHeader freshTrace timestamp outcome).store.lookup tid =
        some (create_trade_object tid sym qty pr tt timestamp)) ∧
    (∀ (req : TradeRequest) (o o' : DownstreamOutcome),
      (create_trade trades req traceHeader freshTrace timestamp o).status =
        (create_trade trades req traceHeader freshTrace timestamp o').status ∧
      (create_trade trades req traceHeader freshTrace timestamp o).body =
        (create_trade trades req traceHeader freshTrace timestamp o').body ∧
      (create_trade trades req traceHeader freshTrace timestamp o).store =
        (create_trade trades req traceHeader freshTrace timestamp o').store) := by
  constructor
  · intro outcome
    refine ⟨?_, ?_, ?_⟩ <;>
      simp [create_trade, htid, hsym, hqty, hpr, htt, Store.lookup_insert]
  · rintro ⟨a, b, c, d, e⟩ o o'
    cases a <;> cases b <;> cases c <;> cases d <;> cases e <;>
      dsimp only [create_trade] <;> try exact ⟨rfl, rfl, rfl⟩
    split <;> exact ⟨rfl, rfl, rfl⟩

/-- Witness for C6 at trades = empty store, trade_id T1, symbol AAPL,
quantity 10, price 150, trade_type buy, with a transport-error
downstream outcome. -/
theorem trade_response_independent_of_downstream_witness :
    ("T1" : String) ≠ "" ∧ ("AAPL" : String) ≠ "" ∧ (10 : ℚ) ≠ 0 ∧
    (150 : ℚ) ≠ 0 ∧ ("buy" : String) ≠ "" ∧
    (create_trade [] ⟨some "T1", some "AAPL", some 10, some 150, some "buy"⟩
        none "f" "ts0" (.transportError "connection refused")).status =
      201 :=
  ⟨by decide, by decide, by norm_num, by norm_num, by decide,
   ((trade_response_independent_of_downstream [] "T1" "AAPL" 10 150 "buy"
     none "f" "ts0" (by decide) (by decide) (by norm_num) (by norm_num)
     (by decide)).1 (.transportError "connection refused")).1⟩

/-- C7: whenever the /trades, /prices or /pnl handler fires its
downstream call, the X-Trace-Id header carried by that call equals the
trace id of the inbound request: the caller-supplied header when
present, otherwise the freshly generated token. -/
theorem trace_id_forwarded_downstream
    (trades : Store Trade) (pnls : Store PnlRecord)
    (treq : TradeRequest) (preq : PriceRequest) (nreq : PnlRequest)
    (traceHeader : Option String) (freshTrace timestamp : String)
    (timedOut fail : Bool) (noise : ℚ) (outcome : DownstreamOutcome) :
    (∀ c o, (create_trade trades treq traceHeader freshTrace timestamp
        outcome).downstream = some (c, o) →
      c.traceId = traceHeader.getD freshTrace) ∧
    (∀ c o, (compute_trade_price preq traceHeader freshTrace timedOut noise
        outcome).downstream = some (c, o) →
      c.traceId = traceHeader.getD freshTrace) ∧
    (∀ c o, (compute_pnl pnls nreq traceHeader freshTrace fail
        outcome).downstream = some (c, o) →
      c.traceId = traceHeader.getD freshTrace) := by
  refine ⟨?_, ?_, ?_⟩
  · rintro c o h
    rcases treq with ⟨a, b, cc, d, e⟩
    cases a <;> cases b <;> cases cc <;> cases d <;> cases e <;>
      dsimp only [create_trade] at h <;>
      try exact Option.noConfusion h
    split at h
    · exact Option.noConfusion h
    · simp only [Option.some.injEq, Prod.mk.injEq] at h
      rw [← h.1]
  · rintro c o h
    rcases preq with ⟨a, b, cc⟩
    cases a <;> cases b <;> cases cc <;>
      dsimp only [compute_trade_price] at h <;>
      try exact Option.noConfusion h
    split at h
    · exact Option.noConfusion h
    · split at h
      · exact Option.noConfusion h
      · simp only [Option.some.injEq, Prod.mk.injEq] at h
        rw [← h.1]
  · rintro c o h
    rcases nreq with ⟨a, b, cc, d⟩
    cases a <;> cases b <;> cases cc <;> cases d <;>
      dsimp only [compute_pnl] at h <;>
      try exact Option.noConfusion h
    split at h
    · exact Option.noConfusion h
    · split at h
      · exact Option.noConfusion h
      · simp only [Option.some.injEq, Prod.mk.injEq] at h
        rw [← h.1]

/-- Witness for C7: the /trades handler with caller-supplied trace
header tr fires its pricing call carrying trace id tr. -/
theorem trace_id_forwarded_downstream_witness :
    (create_trade [] ⟨some "T1", some "AAPL", some 10, some 150, some "buy"⟩
        (some "tr") "f" "ts0" .ok).downstream =
      some (⟨"tr", "T1", "AAPL", 10⟩, .ok) ∧
    (⟨"tr", "T1", "AAPL", (10 : ℚ)⟩ : PricingCall).traceId =
      (some "tr").getD "f" :=
  ⟨by decide,
   (trace_id_forwarded_downstream [] [] ⟨some "T1", some "AAPL", some 10,
       some 150, some "buy"⟩ ⟨some "T1", some "AAPL", some 10⟩
       ⟨some "T1", some "AAPL", some 150, some 10⟩ (some "tr") "f" "ts0"
       false false 0 .ok).1 ⟨"tr", "T1", "AAPL", 10⟩ .ok (by decide)⟩

/-- C8: a POST /prices for an unknown symbol that passes validation and
takes the non-timeout path returns computed_price equal to
100 + noise, which lies in the closed interval from 95 to 105 whenever
the uniform draw lies in the interval from -5 to 5. -/
theorem unknown_symbol_price_in_range
    (tid sym : String) (q noise : ℚ) (traceHeader : Option String)
    (freshTrace : String) (outcome : DownstreamOutcome)
    (htid : tid ≠ "") (hsym : sym ≠ "")
    (h1 : sym ≠ "AAPL") (h2 : sym ≠ "GOOGL") (h3 : sym ≠ "MSFT")
    (hlo : -5 ≤ noise) (hhi : noise ≤ 5) :
    (compute_trade_price ⟨some tid, some sym, some q⟩ traceHeader freshTrace
       false noise outcome).body = .ok tid (compute_price sym noise) ∧
    95 ≤ compute_price sym noise ∧ compute_price sym noise ≤ 105 := by
  have hbase : compute_price sym noise = 100 + noise := by
    simp [compute_price, base_prices, h1, h2, h3]
  refine ⟨?_, ?_, ?_⟩
  · simp [compute_trade_price, htid, hsym]
  · rw [hbase]; linarith
  · rw [hbase]; linarith

/-- Witness for C8 at symbol XXX, quantity 5, noise 7/2. -/
theorem unknown_symbol_price_in_range_witness :
    ("T1" : String) ≠ "" ∧ ("XXX" : String) ≠ "" ∧
    ("XXX" : String) ≠ "AAPL" ∧ ("XXX" : String) ≠ "GOOGL" ∧
    ("XXX" : String) ≠ "MSFT" ∧ (-5 : ℚ) ≤ 7 / 2 ∧ (7 / 2 : ℚ) ≤ 5 ∧
    (95 ≤ compute_price "XXX" (7 / 2) ∧ compute_price "XXX" (7 / 2) ≤ 105) :=
  ⟨by decide, by decide, by decide, by decide, by decide, by norm_num,
   by norm_num,
   (unknown_symbol_price_in_range "T1" "XXX" 5 (7 / 2) none "f" .ok
     (by decide) (by decide) (by decide) (by decide) (by decide)
     (by norm_num) (by norm_num)).2⟩

/-- C9 counterexample: the claim that POST /trades rejects any quantity
that is not a number greater than 0 is false: quantity -5 is truthy, so
the request is accepted with 201 and the stored trade has quantity -5,
which is not greater than 0. -/
theorem trade_negative_quantity_accepted :
    (create_trade [] ⟨some "T1", some "AAPL", some (-5), some 150, some "buy"⟩
        none "f" "ts0" .ok).status = 201 ∧
    ((create_trade [] ⟨some "T1", some "AAPL", some (-5), some 150,
        some "buy"⟩ none "f" "ts0" .ok).store.lookup "T1").map
      Trade.quantity = some (-5) ∧
    ¬(0 : ℚ) < -5 := by
  refine ⟨by decide, by decide, by norm_num⟩

/-- C9 amended: the handler enforces nonzero, not strictly positive,
quantity: a request whose quantity field is absent or zero is rejected
with 400 and the store is unchanged, and every record the handler newly
stores has nonzero quantity. -/
theorem trade_store_quantity_nonzero
    (trades : Store Trade) (req : TradeRequest) (traceHeader : Option String)
    (freshTrace timestamp : String) (outcome : DownstreamOutcome) :
    ((req.quantity = some 0 ∨ req.quantity = none) →
      (create_trade trades req traceHeader freshTrace timestamp
        outcome).status = 400 ∧
      (create_trade trades req traceHeader freshTrace timestamp
        outcome).store = trades) ∧
    (∀ (k : String) (t : Trade),
      (create_trade trades req traceHeader freshTrace timestamp
        outcome).store.lookup k = some t →
      trades.lookup k = some t ∨ t.quantity ≠ 0) := by
  rcases req with ⟨a, b, c, d, e⟩
  constructor
  · rintro (hq | hq) <;> simp only at hq <;> subst hq <;>
      cases a <;> cases b <;> cases d <;> cases e <;>
      simp [create_trade]
  · intro k t h
    cases a <;> cases b <;> cases c <;> cases d <;> cases e <;>
      dsimp only [create_trade] at h <;>
      try exact Or.inl h
    rename_i tid sym qty pr tt
    split at h
    · exact Or.inl h
    · rename_i hcond
      push_neg at hcond
      by_cases hk : k = tid
      · subst hk
        rw [Store.lookup_insert] at h
        cases h
        exact Or.inr hcond.2.2.1
      · rw [Store.lookup_insert_ne _ _ _ _ hk] at h
        exact Or.inl h

/-- Witness for C9 amended: a request with quantity 0 is rejected with
400 and leaves the empty store empty. -/
theorem trade_store_quantity_nonzero_witness :
    (create_trade [] ⟨some "T1", some "AAPL", some 0, some 150, some "buy"⟩
        none "f" "ts0" .ok).status = 400 ∧
    (create_trade [] ⟨some "T1", some "AAPL", some 0, some 150, some "buy"⟩
        none "f" "ts0" .ok).store = [] :=
  (trade_store_quantity_nonzero [] ⟨some "T1", some "AAPL", some 0, some 150,
      some "buy"⟩ none "f" "ts0" .ok).1 (Or.inl rfl)

/-- Consistency of a risks store: every reachable record classifies its
own stored inputs. -/
def RiskStoreOk (s : Store RiskRecord) : Prop :=
  ∀ (tid : String) (r : RiskRecord), s.lookup tid = some r →
    r.risk_level = assess_risk r.pnl_value r.quantity

theorem riskStep_preserves_ok (s : Store RiskRecord) (op : RiskOp)
    (hs : RiskStoreOk s) : RiskStoreOk (riskStep s op) := by
  intro tid r h
  cases op with
  | get t => exact hs tid r h
  | post req fail =>
    rcases req with ⟨a, b, c⟩
    cases a <;> cases b <;> cases c <;>
      dsimp only [riskStep, assess_trade_risk] at h <;>
      try exact hs tid r h
    rename_i tid0 p q
    split at h
    · exact hs tid r h
    · split at h
      · exact hs tid r h
      · by_cases hk : tid = tid0
        · subst hk
          rw [Store.lookup_insert] at h
          cases h
          rfl
        · rw [Store.lookup_insert_ne _ _ _ _ hk] at h
          exact hs tid r h

theorem runRiskOps_preserves_ok (ops : List RiskOp) (s : Store RiskRecord)
    (hs : RiskStoreOk s) : RiskStoreOk (runRiskOps s ops) := by
  induction ops generalizing s with
  | nil => exact hs
  | cons op ops ih => exact ih (riskStep s op) (riskStep_preserves_ok s op hs)

/-- C10: after any sequence of POST /risk and GET /risk requests
starting from the empty store, every stored RiskAssessment has
risk_level equal to assess_risk applied to the pnl_value and quantity
stored in that same record. -/
theorem risk_store_invariant (ops : List RiskOp) (tid : String)
    (r : RiskRecord) (h : (runRiskOps [] ops).lookup tid = some r) :
    r.risk_level = assess_risk r.pnl_value r.quantity := by
  refine runRiskOps_preserves_ok ops [] ?_ tid r h
  intro tid0 r0 h0
  simp [Store.lookup] at h0

/-- Witness for C10 at the one-request sequence posting pnl_value -50,
quantity 60 for trade_id T1. -/
theorem risk_store_invariant_witness :
    (runRiskOps [] [.post ⟨some "T1", some (-50), some 60⟩ false]).lookup
      "T1" = some ⟨"HIGH", -50, 60⟩ ∧
    ("HIGH" : String) = assess_risk (-50) 60 :=
  ⟨by decide,
   risk_store_invariant [.post ⟨some "T1", some (-50), some 60⟩ false] "T1"
     ⟨"HIGH", -50, 60⟩ (by decide)⟩

end TradingPipeline
